import Mathlib

/-!
Shallow embedding of the deferred-request execution core of the
python-arango client library, and proofs of its specification claims.

Embedded modules:
  * arango/batch.py      -- BatchExecution (queue, multipart commit), BatchJob
  * arango/async.py      -- AsyncExecution.handle_request, AsyncJob.result
  * arango/cursor.py     -- Cursor.next, Cursor.close
  * arango/connection.py -- Connection.__init__ signature (keyword binding)
  * arango/constants.py  -- HTTP_OK

Python strings are embedded as lists of characters (PyStr), with structural
(fuel-based) versions of the string operations the code uses, so that every
definition evaluates inside the kernel on concrete inputs.

The repository modules arango/request.py and arango/response.py are not
present under src/ (only their importers are); the Request and Response
value shapes are modelled from the spec, as marked on their definitions.
-/

deriving instance DecidableEq for Except

/-- Embedding of a Python `str` as its list of characters. -/
abbrev PyStr := List Char

/-- Coerce a Lean string literal into the PyStr embedding. -/
def pyLit (s : String) : PyStr := s.data

/-- Fuel-based worker for Python `str.split(sep)` with a non-empty separator:
scans left to right, cutting at each occurrence of `sep`.  The fuel is an
upper bound on the number of scan steps; `pySplit` supplies enough. -/
def pySplitAux (sep : PyStr) : Nat → PyStr → PyStr → List PyStr
  | 0, s, acc => [acc.reverse ++ s]
  | _ + 1, [], acc => [acc.reverse]
  | fuel + 1, c :: rest, acc =>
    if sep.isPrefixOf (c :: rest) then
      acc.reverse :: pySplitAux sep fuel ((c :: rest).drop sep.length) []
    else
      pySplitAux sep fuel rest (c :: acc)

/-- Python `s.split(sep)` for a non-empty separator `sep`. -/
def pySplit (s sep : PyStr) : List PyStr := pySplitAux sep (s.length + 1) s []

/-- Python `s.split(sep, 2)`: at most two cuts; the remainder keeps its
separators.  Modelled on top of the full split. -/
def pySplitMax2 (sep : PyStr) (s : PyStr) : List PyStr :=
  match pySplit s sep with
  | a :: b :: c :: rest =>
    (match rest with
     | [] => [a, b, c]
     | _ => [a, b, List.intercalate sep (c :: rest)])
  | xs => xs

/-- Python `str.strip()`: remove leading and trailing whitespace. -/
def pyStrip (s : PyStr) : PyStr :=
  ((s.dropWhile Char.isWhitespace).reverse.dropWhile Char.isWhitespace).reverse

/-- Python `int(s)` restricted to the unsigned decimal numerals that occur in
HTTP status lines; any other shape raises ValueError, modelled as `none`. -/
def pyInt? (s : PyStr) : Option Nat :=
  if s ≠ [] ∧ s.all Char.isDigit then
    some (s.foldl (fun n c => n * 10 + (c.toNat - 48)) 0)
  else none

/-- Fuel-based decimal rendering worker for `natToPyStr`. -/
def natToPyStrAux : Nat → Nat → PyStr
  | 0, _ => []
  | fuel + 1, n =>
    if n < 10 then [Char.ofNat (48 + n)]
    else natToPyStrAux fuel (n / 10) ++ [Char.ofNat (48 + n % 10)]

/-- Python `str(n)` for a natural number (used by `"...".format(content_id)`). -/
def natToPyStr (n : Nat) : PyStr := natToPyStrAux (n + 1) n

/-- arango/constants.py: the integer members of HTTP_OK (the set also lists
the same codes as strings; the code paths embedded here compare integer
status codes against it). -/
def HTTP_OK : List Nat := [200, 201, 202, 203, 204, 205, 206]

/-- Python `status_code in HTTP_OK` for an integer status code. -/
def httpOk (status_code : Nat) : Bool := HTTP_OK.contains status_code

/-- A Python exception kind that escapes the embedded code un-caught. -/
inductive PyError : Type where
  | typeError
  | indexError
  | valueError
  | keyError
deriving DecidableEq, Repr

/-- A Python header value as it occurs in the embedded code: a string or a
boolean (async.py stores the boolean True as a header value). -/
inductive HVal : Type where
  | str (s : PyStr)
  | bool (b : Bool)
deriving DecidableEq, Repr

instance : Inhabited HVal := ⟨.str []⟩

/-- Python `str(v)` of a header value (`str(True) = "True"`). -/
def HVal.render : HVal → PyStr
  | .str s => s
  | .bool b => if b then pyLit "True" else pyLit "False"

/-- Modelled from the spec: arango/request.py is absent from src/.  The spec
describes the Operation Descriptor as `{method, endpoint, params, payload,
headers}`; params are folded into the endpoint here since no embedded code
path inspects them separately. -/
structure Request : Type where
  method : PyStr
  endpoint : PyStr
  headers : List (PyStr × HVal)
  payload : PyStr
deriving DecidableEq, Repr

/-- Modelled from the spec: arango/request.py is absent from src/.  Spec
section 4.3 step 2 renders a descriptor as "a raw HTTP-request-line-like
string (method, endpoint, headers, payload)". -/
def Request.stringify (r : Request) : PyStr :=
  r.method ++ pyLit " " ++ r.endpoint ++ pyLit " HTTP/1.1\r\n" ++
  (r.headers.map (fun p => p.1 ++ pyLit ": " ++ p.2.render ++ pyLit "\r\n")).foldr
    (· ++ ·) [] ++
  pyLit "\r\n" ++ r.payload

/-- Modelled from the spec: arango/response.py is absent from src/.  The spec
describes RawResponse as `{status_code, status_text, headers, body}`; batch.py
additionally passes method and url to the constructor.  The body type varies
with how the transport parsed it, so it is a parameter. -/
structure Response (β : Type) : Type where
  method : PyStr
  url : PyStr
  headers : List (PyStr × HVal)
  status_code : Nat
  status_text : PyStr
  body : β
deriving DecidableEq, Repr

/-- arango/batch.py: the three statuses of a BatchJob. -/
inductive JobStatus : Type where
  | pending
  | done
  | error
deriving DecidableEq, Repr

/-- arango/batch.py BatchJob: locally cached status, result and exception.
`V` is the domain-result type produced by handlers, `E` the type of the
exceptions handlers raise. -/
structure BatchJob (V E : Type) : Type where
  status : JobStatus
  result : Option V
  exception : Option E
deriving DecidableEq, Repr

/-- BatchJob.__init__: status PENDING, no result, no exception. -/
def BatchJob.init {V E : Type} : BatchJob V E := ⟨.pending, none, none⟩

/-- BatchJob.update: overwrite status, result and exception (the Python
method assigns all three fields unconditionally, defaulting to None). -/
def BatchJob.update {V E : Type} (_self : BatchJob V E) (status : JobStatus)
    (result : Option V) (exception : Option E) : BatchJob V E :=
  ⟨status, result, exception⟩

/-- A response handler: the Result Interpreter paired with each request.
`Except.error` models the handler raising an exception. -/
abbrev Handler (V E : Type) := Response PyStr → Except E V

/-- arango/batch.py BatchExecution state.  The three parallel queues hold
requests, handlers, and references to BatchJob objects.  Python BatchJob
objects are heap objects aliased both by the queue and by the caller, so the
embedding separates the heap (`jobStore`, indexed by creation order) from
the queue of references (`batchJobs`). -/
structure BatchState (V E : Type) : Type where
  requests : List Request
  handlers : List (Handler V E)
  batchJobs : List Nat
  jobStore : List (BatchJob V E)
  return_result : Bool

/-- BatchExecution state right after __init__ (empty queues, no jobs). -/
def freshBatch {V E : Type} (return_result : Bool) : BatchState V E :=
  ⟨[], [], [], [], return_result⟩

/-- arango/batch.py BatchExecution.handle_request: append the request and
handler to the queues; when return_result is set, create a PENDING BatchJob,
queue a reference to it, and hand it back (`some id`), else return None. -/
def BatchExecution.handle_request {V E : Type} (s : BatchState V E)
    (request : Request) (handler : Handler V E) : BatchState V E × Option Nat :=
  let s1 : BatchState V E :=
    { s with requests := s.requests ++ [request],
             handlers := s.handlers ++ [handler] }
  if s1.return_result then
    let jid := s1.jobStore.length
    ({ s1 with jobStore := s1.jobStore ++ [BatchJob.init],
               batchJobs := s1.batchJobs ++ [jid] }, some jid)
  else (s1, none)

/-- arango/batch.py commit, body-building loop: the part text appended for
one request under a given 1-based Content-Id. -/
def batchPartString (content_id : Nat) (request : Request) : PyStr :=
  pyLit "--XXXsubpartXXX\r\n" ++
  pyLit "Content-Type: application/x-arango-batchpart\r\n" ++
  pyLit "Content-Id: " ++ natToPyStr content_id ++ pyLit "\r\n\r\n" ++
  request.stringify ++ pyLit "\r\n"

/-- arango/batch.py commit: the `for content_id, request in
enumerate(self._requests, start=1)` accumulation of raw_data. -/
def buildRawDataAux : Nat → List Request → PyStr
  | _, [] => []
  | content_id, r :: rs =>
    batchPartString content_id r ++ buildRawDataAux (content_id + 1) rs

/-- arango/batch.py commit: the full multipart request body. -/
def buildRawData (requests : List Request) : PyStr :=
  buildRawDataAux 1 requests ++ pyLit "--XXXsubpartXXX--\r\n\r\n"

/-- The raw HTTP response to the outer batch POST: status code plus the raw
multipart body text. -/
structure BatchHTTPResponse : Type where
  status_code : Nat
  raw_body : PyStr

/-- arango/batch.py commit, per-part parsing:
`res_parts = raw_response.strip().split("\r\n")`,
`raw_status, raw_body = res_parts[3], res_parts[-1]`,
`_, status_code, status_text = raw_status.split(" ", 2)`, `int(status_code)`.
Missing index raises IndexError; a failed unpack or int() raises ValueError.
These are not caught by the per-job try, so they abort the loop. -/
def parseBatchPart (raw_response : PyStr) : Except PyError (Nat × PyStr × PyStr) :=
  let res_parts := pySplit (pyStrip raw_response) (pyLit "\r\n")
  match res_parts[3]?, res_parts.getLast? with
  | some raw_status, some raw_body =>
    (match pySplitMax2 (pyLit " ") raw_status with
     | [_, status_code, status_text] =>
       (match pyInt? status_code with
        | some code => .ok (code, status_text, raw_body)
        | none => .error .valueError)
     | _ => .error .valueError)
  | _, _ => .error .indexError

/-- The BatchJob value commit writes for one handler outcome: DONE with the
result on success, ERROR with the captured exception on failure. -/
def interpJob {V E : Type} (job : BatchJob V E) (out : Except E V) : BatchJob V E :=
  match out with
  | .ok result => job.update .done (some result) none
  | .error err => job.update .error none (some err)

/-- The Response object commit hands to handler `index`
(`Response(method=..., url=self._url_prefix + request.endpoint, ...)`). -/
def mkPartResponse (urlPrefix : PyStr) (request : Request)
    (status_code : Nat) (status_text raw_body : PyStr) : Response PyStr :=
  ⟨request.method, urlPrefix ++ request.endpoint, request.headers,
   status_code, status_text, raw_body⟩

/-- arango/batch.py commit, demultiplexing loop over the sub-responses.
Walks the parts with a running `index`, looks up the index-aligned request,
handler and job reference, parses the part, applies the handler inside a
try/except, and updates the referenced job in the store.  Returns the store
as updated so far, plus the uncaught Python exception if one aborted the
loop (job updates made before the abort persist, as in Python). -/
def demuxLoop {V E : Type} (urlPrefix : PyStr) (requests : List Request)
    (handlers : List (Handler V E)) (batchJobs : List Nat) :
    Nat → List PyStr → List (BatchJob V E) →
    List (BatchJob V E) × Option PyError
  | _, [], store => (store, none)
  | index, raw_response :: rest, store =>
    match requests[index]?, handlers[index]?, batchJobs[index]? with
    | some request, some handler, some jid =>
      (match store[jid]? with
       | some job =>
         (match parseBatchPart raw_response with
          | .error e => (store, some e)
          | .ok (status_code, status_text, raw_body) =>
            let job' := interpJob job
              (handler (mkPartResponse urlPrefix request status_code status_text raw_body))
            demuxLoop urlPrefix requests handlers batchJobs
              (index + 1) rest (store.set jid job'))
       | none => (store, some .indexError))
    | _, _, _ => (store, some .indexError)

/-- How a call to commit ends: a normal return, a raised BatchExecuteError
(outer POST not in HTTP_OK), or an uncaught Python exception from the
demultiplexing loop. -/
inductive CommitOutcome : Type where
  | returned
  | batchExecuteError (status_code : Nat)
  | raised (e : PyError)
deriving DecidableEq, Repr

/-- The observable effect of one commit call: the post-state, how the call
ended, and the POST calls issued (endpoint, body). -/
structure CommitResult (V E : Type) : Type where
  state : BatchState V E
  outcome : CommitOutcome
  posts : List (PyStr × PyStr)

/-- The `finally` clause of commit: the three queues are reassigned to empty
lists (the job heap is untouched; callers keep their references). -/
def clearQueues {V E : Type} (s : BatchState V E) : BatchState V E :=
  { s with requests := [], handlers := [], batchJobs := [] }

/-- arango/batch.py commit: the demultiplexing split
`res.raw_body.split("--XXXsubpartXXX")[1:-1]`, producing one raw
sub-response per part, in the order the server sent them. -/
def batchResponseParts (raw_body : PyStr) : List PyStr :=
  ((pySplit raw_body (pyLit "--XXXsubpartXXX")).drop 1).dropLast

/-- arango/batch.py BatchExecution.commit.  The transport is the oracle for
the single POST to /_api/batch; the queues are cleared in every exit path
(the Python `finally`). -/
def BatchExecution.commit {V E : Type} (transport : PyStr → BatchHTTPResponse)
    (urlPrefix : PyStr) (s : BatchState V E) : CommitResult V E :=
  if s.requests.isEmpty then ⟨clearQueues s, .returned, []⟩
  else
    let raw_data := buildRawData s.requests
    let res := transport raw_data
    let posts := [(pyLit "/_api/batch", raw_data)]
    if ¬ httpOk res.status_code then
      ⟨clearQueues s, .batchExecuteError res.status_code, posts⟩
    else if ¬ s.return_result then ⟨clearQueues s, .returned, posts⟩
    else
      let parts := batchResponseParts res.raw_body
      match demuxLoop urlPrefix s.requests s.handlers s.batchJobs 0 parts s.jobStore with
      | (store, none) => ⟨{ clearQueues s with jobStore := store }, .returned, posts⟩
      | (store, some e) => ⟨{ clearQueues s with jobStore := store }, .raised e, posts⟩

/-- The raw acknowledgment response the server returns immediately to an
async submission: status code plus response headers (string-valued). -/
structure AckResponse : Type where
  status_code : Nat
  headers : List (PyStr × PyStr)
deriving DecidableEq, Repr

/-- Python `res.headers[key]` lookup (None when absent models KeyError). -/
def lookupHeader (headers : List (PyStr × PyStr)) (key : PyStr) : Option PyStr :=
  (headers.find? (fun p => p.1 = key)).map (fun p => p.2)

/-- Python `request.headers[key] = v`: replace the value under an existing
key, else add the pair. -/
def setHeader (headers : List (PyStr × HVal)) (key : PyStr) (v : HVal) :
    List (PyStr × HVal) :=
  if headers.any (fun p => p.1 = key) then
    headers.map (fun p => if p.1 = key then (key, v) else p)
  else headers ++ [(key, v)]

/-- The body of a job-API response as async.py reads it: either not parsed
as a JSON object (None) or an object whose errorNum / errorMessage fields
may be present. -/
structure ErrBody : Type where
  errorNum : Option Int
  errorMessage : Option PyStr
deriving DecidableEq, Repr

/-- arango/async.py AsyncJob: the job id issued by the server and the stored
response handler.  No status is cached locally. -/
structure AsyncJob (V E : Type) : Type where
  id : PyStr
  handler : Response (Option ErrBody) → Except E V

/-- How AsyncExecution.handle_request ends: a Job handed back, None handed
back (fire-and-forget), a raised AsyncExecuteError, or an uncaught Python
exception (KeyError when the acknowledgment lacks x-arango-async-id). -/
inductive AsyncSubmitOutcome (V E : Type) : Type where
  | returnedJob (job : AsyncJob V E)
  | returnedNone
  | asyncExecuteError (status_code : Nat)
  | raised (e : PyError)

/-- The observable effect of one async submission: how it ended plus the
requests actually handed to the transport, in order. -/
structure AsyncSubmitResult (V E : Type) : Type where
  outcome : AsyncSubmitOutcome V E
  sent : List Request

/-- arango/async.py AsyncExecution.handle_request, header-marking step: in
store mode `request.headers["x-arango-async"] = "store"`, in fire-and-forget
mode `request.headers["x-arango-async"] = True` (the Python boolean, not the
string "true"). -/
def asyncMarkedRequest (return_result : Bool) (request : Request) : Request :=
  { request with
      headers := setHeader request.headers (pyLit "x-arango-async")
        (if return_result then .str (pyLit "store") else .bool true) }

/-- arango/async.py AsyncExecution.handle_request: mark the request with the
x-arango-async header, dispatch it once through the transport, raise
AsyncExecuteError unless the acknowledgment status is in HTTP_OK, and in
store mode build an AsyncJob from the x-arango-async-id response header. -/
def AsyncExecution.handle_request {V E : Type} (return_result : Bool)
    (transport : Request → AckResponse) (request : Request)
    (handler : Response (Option ErrBody) → Except E V) : AsyncSubmitResult V E :=
  let request := asyncMarkedRequest return_result request
  let res := transport request
  if ¬ httpOk res.status_code then ⟨.asyncExecuteError res.status_code, [request]⟩
  else if return_result then
    match lookupHeader res.headers (pyLit "x-arango-async-id") with
    | some job_id => ⟨.returnedJob ⟨job_id, handler⟩, [request]⟩
    | none => ⟨.raised .keyError, [request]⟩
  else ⟨.returnedNone, [request]⟩

/-- A value AsyncJob.result returns: either the handler result, or (as the
code is written) an AsyncJobNotDoneError exception object returned as a
plain value. -/
inductive AsyncResultValue (V : Type) : Type where
  | handlerValue (v : V)
  | notDoneErrorObject (job_id : PyStr)
deriving DecidableEq, Repr

/-- An exception AsyncJob.result raises. -/
inductive AsyncResultRaise (E : Type) : Type where
  | handlerError (e : E)
  | asyncJobInvalidError
  | asyncJobNotFoundError
  | asyncJobResultGetError (status_code : Nat)
deriving DecidableEq, Repr

/-- arango/async.py AsyncJob.result, as a function of the response to the
PUT /_api/job/id call.  Status 204 RETURNS (not raises) an
AsyncJobNotDoneError object; HTTP_OK applies the stored handler; 400 raises
AsyncJobInvalidError; 404 raises AsyncJobNotFoundError exactly when the body
is an object with errorNum 404 and errorMessage "not found", else falls
through to the handler; anything else raises AsyncJobResultGetError. -/
def AsyncJob.result {V E : Type} (job : AsyncJob V E)
    (res : Response (Option ErrBody)) :
    Except (AsyncResultRaise E) (AsyncResultValue V) :=
  if res.status_code = 204 then .ok (.notDoneErrorObject job.id)
  else if httpOk res.status_code then
    match job.handler res with
    | .ok v => .ok (.handlerValue v)
    | .error e => .error (.handlerError e)
  else if res.status_code = 400 then .error .asyncJobInvalidError
  else if res.status_code = 404 then
    let bodySaysNotFound : Bool :=
      match res.body with
      | some b =>
        b.errorNum = some 404 ∧ b.errorMessage = some (pyLit "not found")
      | none => false
    if bodySaysNotFound then .error .asyncJobNotFoundError
    else
      match job.handler res with
      | .ok v => .ok (.handlerValue v)
      | .error e => .error (.handlerError e)
  else .error (.asyncJobResultGetError res.status_code)

/-- arango/cursor.py: the cursor data dict.  `id` is absent when the first
page was fully materialized; `result` is the current batch of rows (popped
from the front); `hasMore` signals more server-side pages. -/
structure CursorData (ρ : Type) : Type where
  id : Option PyStr
  result : List ρ
  hasMore : Bool
deriving DecidableEq, Repr

/-- Python truthiness of `self.id` (`if not self.id`): None and the empty
string are falsy. -/
def idTruthy : Option PyStr → Bool
  | none => false
  | some s => !s.isEmpty

/-- Python `str(x)` for the optional cursor id as `.format` renders it. -/
def formatOptId : Option PyStr → PyStr
  | none => pyLit "None"
  | some s => s

/-- arango/cursor.py Cursor.close: the endpoint string the code builds,
`"/api/cursor/{}".format(self.id)`. -/
def closeEndpoint (id : PyStr) : PyStr := pyLit "/api/cursor/" ++ id

/-- arango/cursor.py Cursor.next: the endpoint string the code builds,
`"/_api/cursor/{}".format(self.id)`. -/
def nextEndpoint (id : Option PyStr) : PyStr :=
  pyLit "/_api/cursor/" ++ formatOptId id

/-- How Cursor.close ends: a normal return (False when no delete call was
issued, True when the delete was accepted) or a raised CursorCloseError. -/
inductive CloseOutcome : Type where
  | returned (b : Bool)
  | cursorCloseError (status_code : Nat)
deriving DecidableEq, Repr

/-- The observable effect of one Cursor.close call: how it ended plus the
endpoints of the DELETE calls issued. -/
structure CloseResult : Type where
  outcome : CloseOutcome
  deletes : List PyStr
deriving DecidableEq, Repr

/-- arango/cursor.py Cursor.close: early return False when the cursor id is
falsy (no server call); otherwise DELETE the close endpoint and treat any
status outside {404, 202} as CursorCloseError, else return True. -/
def Cursor.close {ρ : Type} (deleteTransport : PyStr → Nat) (d : CursorData ρ) :
    CloseResult :=
  if ¬ idTruthy d.id then ⟨.returned false, []⟩
  else
    let ep := closeEndpoint (formatOptId d.id)
    let status := deleteTransport ep
    if ¬ (status = 404 ∨ status = 202) then ⟨.cursorCloseError status, [ep]⟩
    else ⟨.returned true, [ep]⟩

/-- One server answer to the PUT fetch-next-batch call: an HTTP status code
and, when successful, the next cursor data as the response body. -/
structure FetchReply (ρ : Type) : Type where
  status_code : Nat
  body : CursorData ρ
deriving DecidableEq, Repr

/-- A cursor together with its server oracle: the queue of replies the
server will give to successive PUT fetch calls, and the status the server
will give to a DELETE (close) call. -/
structure CursorState (ρ : Type) : Type where
  data : CursorData ρ
  replies : List (FetchReply ρ)
  deleteStatus : Nat
deriving DecidableEq, Repr

/-- How one Cursor.next call ends. `noReply` is a model artifact for a fetch
issued when the reply oracle is exhausted; it occurs in no theorem input. -/
inductive NextOutcome (ρ : Type) : Type where
  | yielded (r : ρ)
  | stopIteration
  | cursorNextError (status_code : Nat)
  | cursorCloseError (status_code : Nat)
  | indexError
  | noReply
deriving DecidableEq, Repr

/-- arango/cursor.py Cursor.next.  Empty batch with hasMore: PUT the fetch
endpoint, raise CursorNextError unless the status is in HTTP_OK, else
replace the data with the response body and fall through.  Empty batch
without hasMore: close the cursor, then raise StopIteration (a failing
close raises CursorCloseError instead).  Finally `self.current_batch.pop(0)`
yields the front row — popping an empty list raises IndexError. -/
def Cursor.next {ρ : Type} (s : CursorState ρ) : NextOutcome ρ × CursorState ρ :=
  if s.data.result.isEmpty ∧ s.data.hasMore then
    match s.replies with
    | [] => (.noReply, s)
    | rep :: rest =>
      if ¬ httpOk rep.status_code then
        (.cursorNextError rep.status_code, { s with replies := rest })
      else
        match rep.body.result with
        | [] => (.indexError, { s with data := rep.body, replies := rest })
        | r :: rs =>
          (.yielded r, { s with data := { rep.body with result := rs }, replies := rest })
  else if s.data.result.isEmpty ∧ ¬ s.data.hasMore then
    match (Cursor.close (fun _ => s.deleteStatus) s.data).outcome with
    | .cursorCloseError st => (.cursorCloseError st, s)
    | .returned _ => (.stopIteration, s)
  else
    match s.data.result with
    | r :: rs => (.yielded r, { s with data := { s.data with result := rs } })
    | [] => (.indexError, s)

/-- Iterate Cursor.next `n` times, collecting the outcomes in order. -/
def cursorSteps {ρ : Type} : Nat → CursorState ρ → List (NextOutcome ρ)
  | 0, _ => []
  | n + 1, s =>
    let (o, s') := Cursor.next s
    o :: cursorSteps n s'

/-- The reply queue a server holding the given remaining pages answers with:
one status-200 reply per page, hasMore set while later pages remain. -/
def pageReplies {ρ : Type} (id : Option PyStr) : List (List ρ) → List (FetchReply ρ)
  | [] => []
  | pg :: rest => ⟨200, ⟨id, pg, !rest.isEmpty⟩⟩ :: pageReplies id rest

/-- The cursor state for a query whose first page holds `first` and whose
later pages hold `rest`, against a server that answers every close with 404
(the cursor is already gone once exhausted). -/
def initCursor {ρ : Type} (id : Option PyStr) (first : List ρ)
    (rest : List (List ρ)) : CursorState ρ :=
  ⟨⟨id, first, !rest.isEmpty⟩, pageReplies id rest, 404⟩

/-- arango/connection.py Connection.__init__ keyword parameters. -/
def connectionInitParams : List String :=
  ["protocol", "host", "port", "database", "username", "password",
   "http_client", "enable_logging"]

/-- arango/batch.py BatchExecution.__init__: the keywords it passes to
Connection.__init__ via super(). -/
def batchSuperInitKwargs : List String :=
  ["protocol", "host", "port", "username", "password", "client", "database"]

/-- arango/async.py AsyncExecution.__init__: the keywords it passes to
Connection.__init__ via super(). -/
def asyncSuperInitKwargs : List String :=
  ["protocol", "host", "port", "username", "password", "http_client", "database"]

/-- Python keyword-argument binding against a function with no **kwargs
catch-all: the call raises TypeError naming the first keyword that matches
no parameter, else binds. -/
inductive BindResult : Type where
  | bound
  | typeErrorUnexpectedKeyword (kw : String)
deriving DecidableEq, Repr

/-- Bind a keyword-argument list against a parameter list (Python call
semantics, no **kwargs). -/
def bindKwargs (params kwargs : List String) : BindResult :=
  match kwargs.find? (fun k => ¬ params.contains k) with
  | some kw => .typeErrorUnexpectedKeyword kw
  | none => .bound

/-- arango/batch.py BatchExecution.__init__ as observed by a caller: the
super().__init__ call either binds (yielding a fresh batch state) or raises
TypeError before any state exists. -/
def BatchExecution.init {V E : Type} (return_result : Bool) :
    Except PyError (BatchState V E) :=
  match bindKwargs connectionInitParams batchSuperInitKwargs with
  | .typeErrorUnexpectedKeyword _ => .error .typeError
  | .bound => .ok (freshBatch return_result)

/-- The operations a caller can perform on a BatchExecution, for the trace
semantics of the job-lifecycle invariant. -/
inductive BatchOp (V E : Type) : Type where
  | handleRequest (request : Request) (handler : Handler V E)
  | commit (transport : PyStr → BatchHTTPResponse)

/-- Execute one BatchOp on a batch state. -/
def execOp {V E : Type} (urlPrefix : PyStr) (s : BatchState V E) :
    BatchOp V E → BatchState V E
  | .handleRequest request handler =>
    (BatchExecution.handle_request s request handler).1
  | .commit transport => (BatchExecution.commit transport urlPrefix s).state

/-- Run a sequence of BatchOps from a freshly constructed BatchExecution. -/
def runOps {V E : Type} (urlPrefix : PyStr) (return_result : Bool)
    (ops : List (BatchOp V E)) : BatchState V E :=
  ops.foldl (execOp urlPrefix) (freshBatch return_result)

/-- C4: constructing a BatchExecution from a connection raises TypeError in
the super().__init__ call, because BatchExecution.__init__ forwards the
keyword client= while Connection.__init__ only accepts http_client (and has
no catch-all), so batch mode is unreachable through this constructor; the
parallel AsyncExecution.__init__ call, which uses http_client=, binds. -/
theorem batch_init_raises_type_error :
    (∀ (V E : Type) (return_result : Bool),
      BatchExecution.init (V := V) (E := E) return_result = .error .typeError) ∧
    bindKwargs connectionInitParams batchSuperInitKwargs =
      .typeErrorUnexpectedKeyword "client" ∧
    connectionInitParams.contains "client" = false ∧
    connectionInitParams.contains "http_client" = true ∧
    bindKwargs connectionInitParams asyncSuperInitKwargs = .bound := by
  refine ⟨fun V E return_result => rfl, by decide, by decide, by decide, by decide⟩

/-- The AsyncJob used to exhibit the result() 204 behavior. -/
def c5Job : AsyncJob Nat Nat := ⟨pyLit "12345", fun r => .ok r.status_code⟩

/-- A 204 (still pending) response to PUT /_api/job/12345. -/
def c5Res204 : Response (Option ErrBody) :=
  ⟨pyLit "put", pyLit "/_api/job/12345", [], 204, pyLit "No Content", none⟩

/-- C5: on a 204 response, AsyncJob.result RETURNS an AsyncJobNotDoneError
exception object as its value instead of raising it (`return
AsyncJobNotDoneError(self._id)`), contradicting its own docstring, which
says the error is raised, and the claim. -/
theorem async_result_204_returns_exception_object :
    AsyncJob.result c5Job c5Res204 =
      .ok (.notDoneErrorObject (pyLit "12345")) ∧
    (AsyncJob.result c5Job c5Res204).isOk = true := by
  refine ⟨by decide, by decide⟩

/-- The cursor data used to exhibit the close() endpoint bug. -/
def c6Data : CursorData Nat := ⟨some (pyLit "123"), [], false⟩

/-- C6: Cursor.close with a server-assigned id issues its DELETE against
"/api/cursor/123" — not the documented cursor-release endpoint
"/_api/cursor/123" that Cursor.next itself uses — because the format string
in close() is missing the underscore; the 404 the wrong path draws is then
swallowed as "already gone", so close() returns True. -/
theorem cursor_close_endpoint_bug :
    Cursor.close (fun _ => 404) c6Data =
      ⟨.returned true, [pyLit "/api/cursor/123"]⟩ ∧
    (closeEndpoint (pyLit "123") == pyLit "/_api/cursor/123") = false ∧
    nextEndpoint (some (pyLit "123")) = pyLit "/_api/cursor/123" ∧
    Cursor.close (fun _ => 404) (⟨none, [], false⟩ : CursorData Nat) =
      ⟨.returned false, []⟩ := by
  refine ⟨by decide, by decide, by decide, by decide⟩

/-- One next() call on a non-empty current batch pops and yields the front
row; the reply oracle is untouched (no server interaction). -/
theorem cursor_next_cons {ρ : Type} (id : Option PyStr) (r : ρ) (rs : List ρ)
    (hm : Bool) (replies : List (FetchReply ρ)) (del : Nat) :
    Cursor.next ⟨⟨id, r :: rs, hm⟩, replies, del⟩ =
      (.yielded r, ⟨⟨id, rs, hm⟩, replies, del⟩) := by
  simp [Cursor.next]

/-- One next() call on an exhausted batch with more pages pending: the fetch
succeeds (status 200), the data is replaced by the fetched page, and the
front row of that page is popped and yielded within the same call. -/
theorem cursor_next_fetch {ρ : Type} (id id2 : Option PyStr) (q : ρ)
    (qs : List ρ) (hm2 : Bool) (rep_rest : List (FetchReply ρ)) (del : Nat) :
    Cursor.next ⟨⟨id, [], true⟩, ⟨200, ⟨id2, q :: qs, hm2⟩⟩ :: rep_rest, del⟩ =
      (.yielded q, ⟨⟨id2, qs, hm2⟩, rep_rest, del⟩) := by
  simp [Cursor.next, httpOk, HTTP_OK]

/-- One next() call on an exhausted batch with no more pages, against a
server that answers the close DELETE with 404: the close is treated as a
success whatever the id, and StopIteration is signalled. -/
theorem cursor_next_empty_nomore {ρ : Type} (id : Option PyStr)
    (replies : List (FetchReply ρ)) :
    Cursor.next (⟨⟨id, [], false⟩, replies, 404⟩ : CursorState ρ) =
      (.stopIteration, ⟨⟨id, [], false⟩, replies, 404⟩) := by
  rcases id with _ | s
  · rfl
  · by_cases h : s.isEmpty <;> simp [Cursor.next, Cursor.close, idTruthy, h]

/-- Draining lemma: while the current batch is non-empty, successive next()
calls yield exactly its rows in order, leaving the oracle untouched. -/
theorem cursorSteps_drain {ρ : Type} (cur : List ρ) (id : Option PyStr)
    (hm : Bool) (replies : List (FetchReply ρ)) (del n : Nat) :
    cursorSteps (cur.length + n) ⟨⟨id, cur, hm⟩, replies, del⟩ =
      cur.map NextOutcome.yielded ++ cursorSteps n ⟨⟨id, [], hm⟩, replies, del⟩ := by
  induction cur with
  | nil => simp
  | cons r rs ih =>
    have h1 : (r :: rs).length + n = (rs.length + n) + 1 := by
      simp [Nat.add_right_comm]
    rw [h1, cursorSteps, cursor_next_cons]
    simpa using ih

/-- Page-walking lemma: from a state holding rows `cur` with the remaining
pages `rest` (each non-empty) still on the server, `next()` yields all the
remaining rows in order and then signals StopIteration. -/
theorem cursorSteps_pages {ρ : Type} (id : Option PyStr) :
    ∀ (rest : List (List ρ)), (∀ pg ∈ rest, pg ≠ []) → ∀ (cur : List ρ),
      cursorSteps (cur.length + (rest.flatten.length + 1))
        ⟨⟨id, cur, !rest.isEmpty⟩, pageReplies id rest, 404⟩ =
      (cur ++ rest.flatten).map NextOutcome.yielded ++ [NextOutcome.stopIteration] := by
  intro rest
  induction rest with
  | nil =>
    intro _ cur
    rw [cursorSteps_drain]
    simp [pageReplies, cursorSteps, cursor_next_empty_nomore]
  | cons pg rest ih =>
    intro hne cur
    obtain ⟨q, qs, rfl⟩ : ∃ q qs, pg = q :: qs := by
      cases pg with
      | nil => exact absurd rfl (hne [] (by simp))
      | cons q qs => exact ⟨q, qs, rfl⟩
    rw [cursorSteps_drain]
    have h1 : ((q :: qs) :: rest).flatten.length + 1 =
        (qs.length + (rest.flatten.length + 1)) + 1 := by
      simp [Nat.add_right_comm, Nat.add_assoc]
    rw [h1, show pageReplies id ((q :: qs) :: rest) =
          ⟨200, ⟨id, q :: qs, !rest.isEmpty⟩⟩ :: pageReplies id rest from rfl,
        show (!(((q :: qs) :: rest : List (List ρ)).isEmpty)) = true from rfl,
        cursorSteps, cursor_next_fetch]
    have := ih (fun pg hpg => hne pg (by simp [hpg])) qs
    simp only [this]
    simp

/-- C7: cursor exhaustion.  For a query whose K rows arrive as a first page
`first` plus further server pages `rest` (each fetched page non-empty, as
the server sends them), exactly K next() calls succeed, yielding the rows in
server order, and the (K+1)-th call signals StopIteration after closing the
cursor — whether the number of pages is 1 (`rest = []`) or many. -/
theorem cursor_exhaustion {ρ : Type} (id : Option PyStr) (first : List ρ)
    (rest : List (List ρ)) (hpages : ∀ pg ∈ rest, pg ≠ []) :
    cursorSteps ((first ++ rest.flatten).length + 1) (initCursor id first rest) =
      (first ++ rest.flatten).map NextOutcome.yielded ++ [NextOutcome.stopIteration] := by
  have h := cursorSteps_pages id rest hpages first
  simpa [initCursor, Nat.add_assoc] using h

/-- C7 witness: a 5-row query delivered as pages [1,2] / [3] / [4,5] is
exhausted by exactly 5 yielding calls and a 6th StopIteration. -/
theorem cursor_exhaustion_witness :
    (∀ pg ∈ ([[3], [4, 5]] : List (List Nat)), pg ≠ []) ∧
    cursorSteps 6 (initCursor (some (pyLit "77")) [1, 2] [[3], [4, 5]]) =
      [1, 2, 3, 4, 5].map NextOutcome.yielded ++ [NextOutcome.stopIteration] :=
  ⟨by decide, cursor_exhaustion (some (pyLit "77")) [1, 2] [[3], [4, 5]] (by decide)⟩

/-- The C8 counterexample state: current batch exhausted, hasMore true, and
the server answering the fetch with a 200 page whose result list is empty. -/
def c8State : CursorState Nat :=
  ⟨⟨some (pyLit "1"), [], true⟩, [⟨200, ⟨some (pyLit "1"), [], true⟩⟩], 404⟩

/-- C8 counterexample: after the single fetch, next() does NOT retry the
empty/has_more decision — it pops the front of the freshly fetched batch at
once, so a fetched page with an empty result list raises IndexError (from
`[].pop(0)`), an error the claim says can never occur; no second fetch is
attempted (the reply queue is already drained). -/
theorem cursor_next_empty_fetch_index_error :
    (Cursor.next c8State).1 = .indexError ∧
    (Cursor.next c8State).2.replies = [] ∧
    decide ((Cursor.next c8State).1 = NextOutcome.stopIteration) = false := by
  refine ⟨by decide, by decide, by decide⟩

/-- C8 (amended): Cursor.next step semantics as implemented.  A non-empty
batch pops its front row with no I/O; an empty batch with has_more issues
exactly one fetch, replaces the data, and immediately pops the front of the
replacement batch — raising CursorNextError on a non-success fetch status
and IndexError when the fetched page is empty, rather than retrying; an
empty batch without has_more closes the cursor and signals StopIteration
(or CursorCloseError if the close itself fails). -/
theorem cursor_next_step_semantics {ρ : Type} (s : CursorState ρ) :
    (∀ r rs, s.data.result = r :: rs →
      Cursor.next s =
        (.yielded r, { s with data := { s.data with result := rs } })) ∧
    (s.data.result = [] → s.data.hasMore = true →
      ∀ rep rest, s.replies = rep :: rest →
        (¬ httpOk rep.status_code →
          Cursor.next s = (.cursorNextError rep.status_code,
            { s with replies := rest })) ∧
        (httpOk rep.status_code →
          (rep.body.result = [] →
            Cursor.next s = (.indexError,
              { s with data := rep.body, replies := rest })) ∧
          (∀ q qs, rep.body.result = q :: qs →
            Cursor.next s = (.yielded q,
              { s with data := { rep.body with result := qs },
                       replies := rest })))) ∧
    (s.data.result = [] → s.data.hasMore = false →
      ((idTruthy s.data.id = false ∨ s.deleteStatus = 404 ∨ s.deleteStatus = 202) →
        Cursor.next s = (.stopIteration, s)) ∧
      (idTruthy s.data.id = true → ¬ (s.deleteStatus = 404 ∨ s.deleteStatus = 202) →
        Cursor.next s = (.cursorCloseError s.deleteStatus, s))) := by
  obtain ⟨⟨id, result, hasMore⟩, replies, del⟩ := s
  refine ⟨?_, ?_, ?_⟩
  · rintro r rs rfl
    simp [Cursor.next]
  · rintro rfl rfl rep rest rfl
    constructor
    · intro hbad
      simp [Cursor.next, hbad]
    · intro hok
      constructor
      · intro hempty
        simp [Cursor.next, hok, hempty]
      · rintro q qs hres
        simp [Cursor.next, hok, hres]
  · rintro rfl rfl
    constructor
    · rintro (hid | hdel | hdel)
      · simp [Cursor.next, Cursor.close, hid]
      · subst hdel
        simp [Cursor.next, Cursor.close]
        rcases h : idTruthy id <;> simp [h]
      · subst hdel
        simp [Cursor.next, Cursor.close]
        rcases h : idTruthy id <;> simp [h]
    · intro hid hdel
      simp [Cursor.next, Cursor.close, hid, hdel]

/-- C8 witness: the amended step semantics applied at concrete states — a
pop from a non-empty batch, a fetch that pops the front of the fetched page,
and an end-of-sequence close. -/
theorem cursor_next_step_semantics_witness :
    Cursor.next (⟨⟨some (pyLit "9"), [7, 8], true⟩, [], 404⟩ : CursorState Nat) =
      (.yielded 7, ⟨⟨some (pyLit "9"), [8], true⟩, [], 404⟩) ∧
    Cursor.next (⟨⟨some (pyLit "9"), [], true⟩,
        [⟨200, ⟨some (pyLit "9"), [5], false⟩⟩], 404⟩ : CursorState Nat) =
      (.yielded 5, ⟨⟨some (pyLit "9"), [], false⟩,
        [], 404⟩) ∧
    Cursor.next (⟨⟨some (pyLit "9"), [], false⟩, [], 404⟩ : CursorState Nat) =
      (.stopIteration, ⟨⟨some (pyLit "9"), [], false⟩, [], 404⟩) :=
  ⟨(cursor_next_step_semantics _).1 7 [8] rfl,
   ((((cursor_next_step_semantics _).2.1 rfl rfl _ [] rfl).2 (by decide)).2) 5 [] rfl,
   ((cursor_next_step_semantics _).2.2 rfl rfl).1 (Or.inr (Or.inl rfl))⟩

/-- C3: after every commit — normal return, BatchExecuteError on the outer
POST, or an uncaught exception from demultiplexing — the three queues are
empty (the Python finally), so a later submit/commit starts from an empty
queue exactly as a fresh context does; and commit on an empty queue returns
immediately, issuing no POST and raising nothing. -/
theorem batch_commit_queue_reset {V E : Type}
    (transport : PyStr → BatchHTTPResponse) (urlPrefix : PyStr)
    (s : BatchState V E) :
    (BatchExecution.commit transport urlPrefix s).state.requests = [] ∧
    (BatchExecution.commit transport urlPrefix s).state.handlers = [] ∧
    (BatchExecution.commit transport urlPrefix s).state.batchJobs = [] ∧
    (s.requests = [] →
      BatchExecution.commit transport urlPrefix s =
        ⟨clearQueues s, .returned, []⟩) := by
  unfold BatchExecution.commit
  split
  · exact ⟨rfl, rfl, rfl, fun _ => rfl⟩
  next hne =>
    have hne' : ¬ s.requests = [] := by
      simpa [List.isEmpty_iff] using hne
    refine ⟨?_, ?_, ?_, fun h => absurd h hne'⟩ <;>
      · dsimp only
        split
        · rfl
        · split
          · rfl
          · split <;> rfl

/-- C3 witness: committing a fresh (empty-queue) batch context is a no-op
that issues no POST calls. -/
theorem batch_commit_queue_reset_witness :
    BatchExecution.commit (fun _ => ⟨200, []⟩) (pyLit "u")
        (freshBatch (V := Nat) (E := Nat) true) =
      ⟨clearQueues (freshBatch true), .returned, []⟩ :=
  (batch_commit_queue_reset (fun _ => ⟨200, []⟩) (pyLit "u")
    (freshBatch true)).2.2.2 rfl

/-- Python `request.headers[key]` lookup on HVal-valued headers. -/
def lookupHVal (headers : List (PyStr × HVal)) (key : PyStr) : Option HVal :=
  (headers.find? (fun p => p.1 = key)).map (fun p => p.2)

/-- After `headers[key] = v`, looking up `key` gives `v`. -/
theorem lookupHVal_setHeader (headers : List (PyStr × HVal)) (key : PyStr)
    (v : HVal) : lookupHVal (setHeader headers key v) key = some v := by
  unfold setHeader
  by_cases hany : headers.any (fun p => p.1 = key)
  · simp only [hany, if_true]
    induction headers with
    | nil => simp at hany
    | cons p rest ih =>
      by_cases hp : p.1 = key
      · simp [lookupHVal, List.find?, hp]
      · have : rest.any (fun p => p.1 = key) := by
          simpa [List.any_cons, hp] using hany
        simpa [lookupHVal, List.find?, hp] using ih this
  · rw [if_neg hany]
    have hfalse : headers.any (fun p => decide (p.1 = key)) = false := by
      rwa [Bool.not_eq_true] at hany
    have hnone : headers.find? (fun p => decide (p.1 = key)) = none :=
      List.find?_eq_none.mpr (fun p hp => by
        have := List.any_eq_false.mp hfalse p hp
        simpa using this)
    simp [lookupHVal, hnone]

/-- The request used to exhibit the fire-and-forget header value. -/
def c9Request : Request := ⟨pyLit "post", pyLit "/_api/document", [], pyLit "body"⟩

/-- A concrete stored handler for the async theorems. -/
def c9Handler : Response (Option ErrBody) → Except Nat Nat :=
  fun r => .ok r.status_code

/-- C9 counterexample: in fire-and-forget mode the code sets the
x-arango-async header to the Python boolean True
(`request.headers["x-arango-async"] = True`), which is not the string
"true" the claim states. -/
theorem async_fire_and_forget_header_is_bool_true :
    lookupHVal (asyncMarkedRequest false c9Request).headers
        (pyLit "x-arango-async") = some (HVal.bool true) ∧
    decide (HVal.bool true = HVal.str (pyLit "true")) = false ∧
    (AsyncExecution.handle_request (V := Nat) (E := Nat) false
        (fun _ => ⟨202, []⟩) c9Request c9Handler).sent =
      [asyncMarkedRequest false c9Request] := by
  refine ⟨by decide, by decide, by decide⟩

/-- C9 (amended): AsyncExecution.handle_request marks the request header
x-arango-async with the string "store" when results are retained and with
the Python boolean True in fire-and-forget mode, invokes the transport
exactly once with the marked request, raises AsyncExecuteError and creates
no Job when the immediate acknowledgment status is not in the success
range, and on success with results retained returns an AsyncJob holding
the server-issued x-arango-async-id (fire-and-forget returns None). -/
theorem async_handle_request_semantics {V E : Type} (return_result : Bool)
    (transport : Request → AckResponse) (request : Request)
    (handler : Response (Option ErrBody) → Except E V) :
    lookupHVal (asyncMarkedRequest true request).headers (pyLit "x-arango-async") =
      some (HVal.str (pyLit "store")) ∧
    lookupHVal (asyncMarkedRequest false request).headers (pyLit "x-arango-async") =
      some (HVal.bool true) ∧
    (AsyncExecution.handle_request return_result transport request handler).sent =
      [asyncMarkedRequest return_result request] ∧
    (¬ httpOk (transport (asyncMarkedRequest return_result request)).status_code →
      (AsyncExecution.handle_request return_result transport request handler).outcome =
        .asyncExecuteError (transport (asyncMarkedRequest return_result request)).status_code) ∧
    (httpOk (transport (asyncMarkedRequest return_result request)).status_code →
      (return_result = true →
        ∀ job_id, lookupHeader (transport (asyncMarkedRequest return_result request)).headers
            (pyLit "x-arango-async-id") = some job_id →
          (AsyncExecution.handle_request return_result transport request handler).outcome =
            .returnedJob ⟨job_id, handler⟩) ∧
      (return_result = false →
        (AsyncExecution.handle_request return_result transport request handler).outcome =
          .returnedNone)) := by
  refine ⟨lookupHVal_setHeader _ _ _, lookupHVal_setHeader _ _ _, ?_, ?_, ?_⟩
  · unfold AsyncExecution.handle_request
    dsimp only
    split
    · rfl
    · split
      · split <;> rfl
      · rfl
  · intro hbad
    unfold AsyncExecution.handle_request
    dsimp only
    rw [if_pos hbad]
  · intro hok
    constructor
    · rintro rfl job_id hjid
      unfold AsyncExecution.handle_request
      dsimp only
      rw [if_neg (by simpa using hok), if_pos rfl, hjid]
    · rintro rfl
      unfold AsyncExecution.handle_request
      dsimp only
      rw [if_neg (by simpa using hok)]
      rfl

/-- C9 witness: the amended semantics applied to a concrete store-mode
submission acknowledged with 202 and job id 42, and to a concrete
fire-and-forget submission. -/
theorem async_handle_request_semantics_witness :
    (AsyncExecution.handle_request true
        (fun _ => ⟨202, [(pyLit "x-arango-async-id", pyLit "42")]⟩)
        c9Request c9Handler).outcome =
      .returnedJob ⟨pyLit "42", c9Handler⟩ ∧
    (AsyncExecution.handle_request false
        (fun _ => ⟨202, [(pyLit "x-arango-async-id", pyLit "42")]⟩)
        c9Request c9Handler).outcome = .returnedNone :=
  ⟨((async_handle_request_semantics true
        (fun _ => ⟨202, [(pyLit "x-arango-async-id", pyLit "42")]⟩)
        c9Request c9Handler).2.2.2.2 (by decide)).1 rfl (pyLit "42") (by decide),
   ((async_handle_request_semantics false
        (fun _ => ⟨202, [(pyLit "x-arango-async-id", pyLit "42")]⟩)
        c9Request c9Handler).2.2.2.2 (by decide)).2 rfl⟩

/-- The BatchJob value determined by one handler outcome: DONE with the
result, or ERROR with the captured exception. -/
def handlerOutcomeJob {V E : Type} (out : Except E V) : BatchJob V E :=
  match out with
  | .ok result => ⟨.done, some result, none⟩
  | .error err => ⟨.error, none, some err⟩

/-- BatchJob.update overwrites every field, so the job commit writes does
not depend on the previous job value. -/
theorem interpJob_eq_handlerOutcomeJob {V E : Type} (job : BatchJob V E)
    (out : Except E V) : interpJob job out = handlerOutcomeJob out := by
  cases out <;> rfl

/-- Content-Id numbering: the raw_data accumulation starting the count at
`c` renders exactly the parts of the queue paired with ids c, c+1, ... . -/
theorem buildRawDataAux_enumFrom (requests : List Request) :
    ∀ c, buildRawDataAux c requests =
      ((requests.enumFrom c).map
        (fun p => batchPartString p.1 p.2)).foldr (· ++ ·) [] := by
  induction requests with
  | nil => intro c; rfl
  | cons r rs ih =>
    intro c
    simp only [buildRawDataAux, List.enumFrom_cons, List.map_cons, List.foldr_cons,
      ih (c + 1)]

/-- Correctness of the demultiplexing loop from position `k`: when the
index-aligned lookups stay in range, the queued job ids are distinct and in
range, and every part parses, the loop finishes without an uncaught
exception, touches only the jobs referenced at the processed positions, and
writes into the job referenced at position k+i exactly the outcome of
handler k+i applied to sub-response i. -/
theorem demuxLoop_spec {V E : Type} (urlPrefix : PyStr) (requests : List Request)
    (handlers : List (Handler V E)) (batchJobs : List Nat)
    (hnd : batchJobs.Nodup) :
    ∀ (parts : List PyStr) (k : Nat) (store : List (BatchJob V E)),
      k + parts.length ≤ requests.length →
      k + parts.length ≤ handlers.length →
      k + parts.length ≤ batchJobs.length →
      (∀ jid ∈ batchJobs, jid < store.length) →
      (∀ part ∈ parts, (parseBatchPart part).isOk = true) →
      (demuxLoop urlPrefix requests handlers batchJobs k parts store).2 = none ∧
      (demuxLoop urlPrefix requests handlers batchJobs k parts store).1.length =
        store.length ∧
      (∀ j : Nat, (∀ i, i < parts.length → batchJobs[k + i]? ≠ some j) →
        (demuxLoop urlPrefix requests handlers batchJobs k parts store).1[j]? =
          store[j]?) ∧
      (∀ (i : Nat) (part : PyStr) (req : Request) (hdl : Handler V E) (jid : Nat), parts[i]? = some part →
        requests[k + i]? = some req → handlers[k + i]? = some hdl →
        batchJobs[k + i]? = some jid →
        ∀ sc st bd, parseBatchPart part = .ok (sc, st, bd) →
          (demuxLoop urlPrefix requests handlers batchJobs k parts store).1[jid]? =
            some (handlerOutcomeJob (hdl (mkPartResponse urlPrefix req sc st bd)))) := by
  intro parts
  induction parts with
  | nil =>
    intro k store _ _ _ _ _
    refine ⟨rfl, rfl, fun j _ => rfl, ?_⟩
    intro i part req hdl jid hpart
    simp at hpart
  | cons part rest ih =>
    intro k store hlr hlh hlb hjb hparse
    simp only [List.length_cons] at hlr hlh hlb
    have hkr : k < requests.length := by omega
    have hkh : k < handlers.length := by omega
    have hkb : k < batchJobs.length := by omega
    have hreq0 : requests[k]? = some requests[k] := List.getElem?_eq_getElem hkr
    have hhdl0 : handlers[k]? = some handlers[k] := List.getElem?_eq_getElem hkh
    have hjid0 : batchJobs[k]? = some batchJobs[k] := List.getElem?_eq_getElem hkb
    have hjlt : batchJobs[k] < store.length := hjb _ (List.getElem?_mem hjid0)
    have hstore0 : store[batchJobs[k]]? = some store[batchJobs[k]] :=
      List.getElem?_eq_getElem hjlt
    have hpok := hparse part (List.mem_cons_self _ _)
    obtain ⟨⟨sc, st, bd⟩, hpeq⟩ : ∃ x, parseBatchPart part = .ok x := by
      cases hp : parseBatchPart part with
      | ok x => exact ⟨x, rfl⟩
      | error e => rw [hp] at hpok; simp [Except.isOk, Except.toBool] at hpok
    have hstep : demuxLoop urlPrefix requests handlers batchJobs k (part :: rest) store =
        demuxLoop urlPrefix requests handlers batchJobs (k + 1) rest
          (store.set batchJobs[k]
            (interpJob store[batchJobs[k]]
              (handlers[k] (mkPartResponse urlPrefix requests[k] sc st bd)))) := by
      simp only [demuxLoop, hreq0, hhdl0, hjid0, hstore0, hpeq]
    have hjb' : ∀ jid ∈ batchJobs, jid <
        (store.set batchJobs[k]
          (interpJob store[batchJobs[k]]
            (handlers[k] (mkPartResponse urlPrefix requests[k] sc st bd)))).length := by
      intro jid hm
      simpa [List.length_set] using hjb jid hm
    obtain ⟨ih1, ih2, ih3, ih4⟩ := ih (k + 1)
      (store.set batchJobs[k]
        (interpJob store[batchJobs[k]]
          (handlers[k] (mkPartResponse urlPrefix requests[k] sc st bd))))
      (by omega) (by omega) (by omega) hjb'
      (fun p hp => hparse p (List.mem_cons_of_mem _ hp))
    rw [hstep]
    refine ⟨ih1, by rw [ih2, List.length_set], ?_, ?_⟩
    · intro j hj
      have htail : ∀ i, i < rest.length → batchJobs[k + 1 + i]? ≠ some j := by
        intro i hi
        have h2 : k + 1 + i = k + (i + 1) := by omega
        rw [h2]
        exact hj (i + 1) (by simp only [List.length_cons]; omega)
      rw [ih3 j htail]
      apply List.getElem?_set_ne
      intro hEq
      exact hj 0 (by simp) (by rw [Nat.add_zero, hjid0, hEq])
    · intro i part' req hdl jid hpart hreq hhdl hjid sc' st' bd' hpe
      cases i with
      | zero =>
        rw [Nat.add_zero] at hreq hhdl hjid
        obtain rfl : part = part' := by simpa using hpart
        rw [hreq0] at hreq
        rw [hhdl0] at hhdl
        rw [hjid0] at hjid
        obtain rfl : req = requests[k] := (Option.some.inj hreq).symm
        obtain rfl : hdl = handlers[k] := (Option.some.inj hhdl).symm
        obtain rfl : jid = batchJobs[k] := (Option.some.inj hjid).symm
        rw [hpeq] at hpe
        obtain ⟨rfl, rfl, rfl⟩ : sc = sc' ∧ st = st' ∧ bd = bd' := by
          have := Except.ok.inj hpe
          exact ⟨congrArg Prod.fst this,
            congrArg Prod.fst (congrArg Prod.snd this),
            congrArg Prod.snd (congrArg Prod.snd this)⟩
        have hnd' := List.nodup_iff_getElem?_ne_getElem?.mp hnd
        have htail : ∀ i2, i2 < rest.length →
            batchJobs[k + 1 + i2]? ≠ some batchJobs[k] := by
          intro i2 hi2 hcontra
          exact hnd' k (k + 1 + i2) (by omega) (by omega)
            (by rw [hjid0, hcontra])
        rw [ih3 _ htail, List.getElem?_set_self hjlt,
          interpJob_eq_handlerOutcomeJob]
      | succ i =>
        have h2 : k + (i + 1) = (k + 1) + i := by omega
        rw [h2] at hreq hhdl hjid
        exact ih4 i part' req hdl jid (by simpa using hpart) hreq hhdl hjid
          sc' st' bd' hpe

/-- The success-path shape of commit: with a non-empty queue, a success
status on the outer POST and results requested, commit returns normally
with the job store produced by the demultiplexing loop, provided the loop
raises nothing. -/
theorem commit_success_shape {V E : Type} (transport : PyStr → BatchHTTPResponse)
    (urlPrefix : PyStr) (s : BatchState V E)
    (hrr : s.return_result = true) (hne : s.requests ≠ [])
    (hok : httpOk (transport (buildRawData s.requests)).status_code)
    (hnoerr : (demuxLoop urlPrefix s.requests s.handlers s.batchJobs 0
        (batchResponseParts (transport (buildRawData s.requests)).raw_body)
        s.jobStore).2 = none) :
    BatchExecution.commit transport urlPrefix s =
      ⟨{ clearQueues s with
          jobStore := (demuxLoop urlPrefix s.requests s.handlers s.batchJobs 0
            (batchResponseParts (transport (buildRawData s.requests)).raw_body)
            s.jobStore).1 },
        .returned, [(pyLit "/_api/batch", buildRawData s.requests)]⟩ := by
  have hisE : ¬ s.requests.isEmpty = true := by
    simpa [List.isEmpty_iff] using hne
  unfold BatchExecution.commit
  rw [if_neg hisE]
  dsimp only
  rw [if_neg (by simp [hok]), if_neg (by simp [hrr])]
  rw [show demuxLoop urlPrefix s.requests s.handlers s.batchJobs 0
        (batchResponseParts (transport (buildRawData s.requests)).raw_body)
        s.jobStore =
      ((demuxLoop urlPrefix s.requests s.handlers s.batchJobs 0
        (batchResponseParts (transport (buildRawData s.requests)).raw_body)
        s.jobStore).1, none) from by rw [← hnoerr]]

/-- C1: batch ordering.  The outgoing multipart body numbers the queued
requests with 1-based Content-Ids matching queue position (the enumFrom 1
rendering), and on a successful commit with results requested the i-th
sub-response of the server reply is parsed, interpreted with the i-th
queued handler, and its outcome written into the BatchJob queued at
position i — for every index i, whatever the queue length. -/
theorem batch_commit_resolves_in_submission_order {V E : Type}
    (transport : PyStr → BatchHTTPResponse) (urlPrefix : PyStr)
    (s : BatchState V E)
    (hrr : s.return_result = true)
    (hne : s.requests ≠ [])
    (hnd : s.batchJobs.Nodup)
    (hjb : ∀ jid ∈ s.batchJobs, jid < s.jobStore.length)
    (hok : httpOk (transport (buildRawData s.requests)).status_code)
    (hlr : (batchResponseParts (transport (buildRawData s.requests)).raw_body).length ≤
      s.requests.length)
    (hlh : (batchResponseParts (transport (buildRawData s.requests)).raw_body).length ≤
      s.handlers.length)
    (hlb : (batchResponseParts (transport (buildRawData s.requests)).raw_body).length ≤
      s.batchJobs.length)
    (hparse : ∀ part ∈ batchResponseParts (transport (buildRawData s.requests)).raw_body,
      (parseBatchPart part).isOk = true) :
    buildRawData s.requests =
      ((s.requests.enumFrom 1).map
        (fun p => batchPartString p.1 p.2)).foldr (· ++ ·) [] ++
        pyLit "--XXXsubpartXXX--\r\n\r\n" ∧
    (BatchExecution.commit transport urlPrefix s).outcome = .returned ∧
    (∀ (i : Nat) (part : PyStr) (req : Request) (hdl : Handler V E) (jid : Nat),
      (batchResponseParts (transport (buildRawData s.requests)).raw_body)[i]? =
        some part →
      s.requests[i]? = some req → s.handlers[i]? = some hdl →
      s.batchJobs[i]? = some jid →
      ∀ sc st bd, parseBatchPart part = .ok (sc, st, bd) →
        (BatchExecution.commit transport urlPrefix s).state.jobStore[jid]? =
          some (handlerOutcomeJob (hdl (mkPartResponse urlPrefix req sc st bd)))) := by
  obtain ⟨h1, h2, h3, h4⟩ := demuxLoop_spec urlPrefix s.requests s.handlers
    s.batchJobs hnd
    (batchResponseParts (transport (buildRawData s.requests)).raw_body) 0
    s.jobStore (by omega) (by omega) (by omega) hjb hparse
  have hcommit := commit_success_shape transport urlPrefix s hrr hne hok h1
  refine ⟨?_, ?_, ?_⟩
  · unfold buildRawData
    rw [buildRawDataAux_enumFrom]
  · rw [hcommit]
  · intro i part req hdl jid hpart hreq hhdl hjid sc st bd hpe
    rw [hcommit]
    exact h4 i part req hdl jid hpart (by simpa using hreq)
      (by simpa using hhdl) (by simpa using hjid) sc st bd hpe

/-- C2: batch failure isolation.  When the outer POST fails, commit raises
BatchExecuteError and leaves every job untouched (the queued jobs keep
whatever status they had — PENDING for jobs created by handle_request);
when the outer POST succeeds and every part parses, commit returns
normally, and for each index i the job queued at i is set to ERROR with the
captured exception exactly when handler i raises, and to DONE with its own
result exactly when handler i succeeds — independently for every i. -/
theorem batch_commit_failure_isolation {V E : Type}
    (transport : PyStr → BatchHTTPResponse) (urlPrefix : PyStr)
    (s : BatchState V E)
    (hrr : s.return_result = true)
    (hne : s.requests ≠ [])
    (hnd : s.batchJobs.Nodup)
    (hjb : ∀ jid ∈ s.batchJobs, jid < s.jobStore.length)
    (hlr : (batchResponseParts (transport (buildRawData s.requests)).raw_body).length ≤
      s.requests.length)
    (hlh : (batchResponseParts (transport (buildRawData s.requests)).raw_body).length ≤
      s.handlers.length)
    (hlb : (batchResponseParts (transport (buildRawData s.requests)).raw_body).length ≤
      s.batchJobs.length) :
    (¬ httpOk (transport (buildRawData s.requests)).status_code →
      (BatchExecution.commit transport urlPrefix s).outcome =
        .batchExecuteError (transport (buildRawData s.requests)).status_code ∧
      (BatchExecution.commit transport urlPrefix s).state.jobStore = s.jobStore) ∧
    (httpOk (transport (buildRawData s.requests)).status_code →
      (∀ part ∈ batchResponseParts (transport (buildRawData s.requests)).raw_body,
        (parseBatchPart part).isOk = true) →
      (BatchExecution.commit transport urlPrefix s).outcome = .returned ∧
      (∀ (i : Nat) (part : PyStr) (req : Request) (hdl : Handler V E) (jid : Nat),
        (batchResponseParts (transport (buildRawData s.requests)).raw_body)[i]? =
          some part →
        s.requests[i]? = some req → s.handlers[i]? = some hdl →
        s.batchJobs[i]? = some jid →
        ∀ sc st bd, parseBatchPart part = .ok (sc, st, bd) →
          (∀ e, hdl (mkPartResponse urlPrefix req sc st bd) = .error e →
            (BatchExecution.commit transport urlPrefix s).state.jobStore[jid]? =
              some ⟨.error, none, some e⟩) ∧
          (∀ v, hdl (mkPartResponse urlPrefix req sc st bd) = .ok v →
            (BatchExecution.commit transport urlPrefix s).state.jobStore[jid]? =
              some ⟨.done, some v, none⟩))) := by
  constructor
  · intro hbad
    have hisE : ¬ s.requests.isEmpty = true := by
      simpa [List.isEmpty_iff] using hne
    have hshape : BatchExecution.commit transport urlPrefix s =
        ⟨clearQueues s,
          .batchExecuteError (transport (buildRawData s.requests)).status_code,
          [(pyLit "/_api/batch", buildRawData s.requests)]⟩ := by
      unfold BatchExecution.commit
      rw [if_neg hisE]
      dsimp only
      rw [if_pos (by simpa using hbad)]
    rw [hshape]
    exact ⟨rfl, rfl⟩
  · intro hok hparse
    obtain ⟨h1, h2, h3, h4⟩ := demuxLoop_spec urlPrefix s.requests s.handlers
      s.batchJobs hnd
      (batchResponseParts (transport (buildRawData s.requests)).raw_body) 0
      s.jobStore (by omega) (by omega) (by omega) hjb hparse
    have hcommit := commit_success_shape transport urlPrefix s hrr hne hok h1
    refine ⟨by rw [hcommit], ?_⟩
    intro i part req hdl jid hpart hreq hhdl hjid sc st bd hpe
    have hmain := h4 i part req hdl jid hpart (by simpa using hreq)
      (by simpa using hhdl) (by simpa using hjid) sc st bd hpe
    constructor
    · intro e he
      rw [hcommit]
      rw [hmain, he]
      rfl
    · intro v hv
      rw [hcommit]
      rw [hmain, hv]
      rfl

/-- First queued request of the concrete batch scenario. -/
def c1Req1 : Request := ⟨pyLit "post", pyLit "/one", [], pyLit "p1"⟩

/-- Second queued request of the concrete batch scenario. -/
def c1Req2 : Request := ⟨pyLit "post", pyLit "/two", [], pyLit "p2"⟩

/-- A handler that succeeds with the status code of its response. -/
def c1Handler1 : Handler Nat Nat := fun r => .ok r.status_code

/-- A handler that raises (the failing sibling of the isolation scenario). -/
def c1Handler2 : Handler Nat Nat := fun _ => .error 9

/-- The concrete multipart response body: two parts with statuses 201 and
202, in submission order. -/
def c1Body : PyStr :=
  pyLit "--XXXsubpartXXX\r\nContent-Type: application/x-arango-batchpart\r\nContent-Id: 1\r\n\r\nHTTP/1.1 201 Created\r\nServer: test\r\n\r\nbodyone\r\n--XXXsubpartXXX\r\nContent-Type: application/x-arango-batchpart\r\nContent-Id: 2\r\n\r\nHTTP/1.1 202 Accepted\r\nServer: test\r\n\r\nbodytwo\r\n--XXXsubpartXXX--\r\n\r\n"

/-- The first demultiplexed sub-response of `c1Body`. -/
def c1Part1 : PyStr :=
  pyLit "\r\nContent-Type: application/x-arango-batchpart\r\nContent-Id: 1\r\n\r\nHTTP/1.1 201 Created\r\nServer: test\r\n\r\nbodyone\r\n"

/-- The second demultiplexed sub-response of `c1Body`. -/
def c1Part2 : PyStr :=
  pyLit "\r\nContent-Type: application/x-arango-batchpart\r\nContent-Id: 2\r\n\r\nHTTP/1.1 202 Accepted\r\nServer: test\r\n\r\nbodytwo\r\n"

/-- A transport whose outer POST succeeds with the two-part body. -/
def c1Transport : PyStr → BatchHTTPResponse := fun _ => ⟨200, c1Body⟩

/-- A transport whose outer POST fails with 503. -/
def c2FailTransport : PyStr → BatchHTTPResponse := fun _ => ⟨503, []⟩

/-- The queue for the ordering scenario: both handlers succeed. -/
def c1State : BatchState Nat Nat :=
  ⟨[c1Req1, c1Req2], [c1Handler1, c1Handler1], [0, 1],
   [BatchJob.init, BatchJob.init], true⟩

/-- The queue for the isolation scenario: the second handler raises. -/
def c2State : BatchState Nat Nat :=
  ⟨[c1Req1, c1Req2], [c1Handler1, c1Handler2], [0, 1],
   [BatchJob.init, BatchJob.init], true⟩

set_option maxRecDepth 40000

/-- C1 witness: committing the concrete two-request batch writes the
outcome of handler i on sub-response i into the job queued at position i,
for i = 0 and i = 1. -/
theorem batch_commit_order_witness :
    (BatchExecution.commit c1Transport (pyLit "u") c1State).state.jobStore[0]? =
      some (handlerOutcomeJob (c1Handler1 (mkPartResponse (pyLit "u") c1Req1
        201 (pyLit "Created") (pyLit "bodyone")))) ∧
    (BatchExecution.commit c1Transport (pyLit "u") c1State).state.jobStore[1]? =
      some (handlerOutcomeJob (c1Handler1 (mkPartResponse (pyLit "u") c1Req2
        202 (pyLit "Accepted") (pyLit "bodytwo")))) :=
  ⟨(batch_commit_resolves_in_submission_order c1Transport (pyLit "u") c1State
      rfl (by decide) (by decide) (by decide) (by decide) (by decide)
      (by decide) (by decide) (by decide)).2.2
      0 c1Part1 c1Req1 c1Handler1 0 (by decide) rfl rfl rfl
      201 (pyLit "Created") (pyLit "bodyone") (by decide),
   (batch_commit_resolves_in_submission_order c1Transport (pyLit "u") c1State
      rfl (by decide) (by decide) (by decide) (by decide) (by decide)
      (by decide) (by decide) (by decide)).2.2
      1 c1Part2 c1Req2 c1Handler1 1 (by decide) rfl rfl rfl
      202 (pyLit "Accepted") (pyLit "bodytwo") (by decide)⟩

/-- C2 witness: with the second handler raising, commit still returns, the
first job is DONE with its own result, the second is ERROR with the captured
exception; and with an outer 503 the commit raises BatchExecuteError and no
job is touched. -/
theorem batch_commit_failure_isolation_witness :
    (BatchExecution.commit c1Transport (pyLit "u") c2State).outcome =
      .returned ∧
    (BatchExecution.commit c1Transport (pyLit "u") c2State).state.jobStore[0]? =
      some ⟨.done, some 201, none⟩ ∧
    (BatchExecution.commit c1Transport (pyLit "u") c2State).state.jobStore[1]? =
      some ⟨.error, none, some 9⟩ ∧
    (BatchExecution.commit c2FailTransport (pyLit "u") c2State).outcome =
      .batchExecuteError 503 ∧
    (BatchExecution.commit c2FailTransport (pyLit "u") c2State).state.jobStore =
      c2State.jobStore :=
  ⟨((batch_commit_failure_isolation c1Transport (pyLit "u") c2State
      rfl (by decide) (by decide) (by decide) (by decide) (by decide)
      (by decide)).2 (by decide) (by decide)).1,
   (((batch_commit_failure_isolation c1Transport (pyLit "u") c2State
      rfl (by decide) (by decide) (by decide) (by decide) (by decide)
      (by decide)).2 (by decide) (by decide)).2
      0 c1Part1 c1Req1 c1Handler1 0 (by decide) rfl rfl rfl
      201 (pyLit "Created") (pyLit "bodyone") (by decide)).2 201 rfl,
   (((batch_commit_failure_isolation c1Transport (pyLit "u") c2State
      rfl (by decide) (by decide) (by decide) (by decide) (by decide)
      (by decide)).2 (by decide) (by decide)).2
      1 c1Part2 c1Req2 c1Handler2 1 (by decide) rfl rfl rfl
      202 (pyLit "Accepted") (pyLit "bodytwo") (by decide)).1 9 rfl,
   ((batch_commit_failure_isolation c2FailTransport (pyLit "u") c2State
      rfl (by decide) (by decide) (by decide) (by decide) (by decide)
      (by decide)).1 (by decide)).1,
   ((batch_commit_failure_isolation c2FailTransport (pyLit "u") c2State
      rfl (by decide) (by decide) (by decide) (by decide) (by decide)
      (by decide)).1 (by decide)).2⟩

/-- Commit leaves the queue of job references empty in every exit path. -/
theorem commit_batchJobs_empty {V E : Type} (transport : PyStr → BatchHTTPResponse)
    (urlPrefix : PyStr) (s : BatchState V E) :
    (BatchExecution.commit transport urlPrefix s).state.batchJobs = [] := by
  unfold BatchExecution.commit
  split
  · rfl
  · dsimp only
    split
    · rfl
    · split
      · rfl
      · split <;> rfl

/-- handle_request never modifies an existing job entry. -/
theorem handle_request_jobStore_preserved {V E : Type} (s : BatchState V E)
    (request : Request) (handler : Handler V E) (j : Nat)
    (hj : j < s.jobStore.length) :
    (BatchExecution.handle_request s request handler).1.jobStore[j]? =
      s.jobStore[j]? := by
  unfold BatchExecution.handle_request
  dsimp only
  split
  · exact List.getElem?_append_left hj
  · rfl

/-- The demultiplexing loop writes only at job ids drawn from the queue of
job references: any id outside the queue keeps its store entry. -/
theorem demuxLoop_frame {V E : Type} (urlPrefix : PyStr) (requests : List Request)
    (handlers : List (Handler V E)) (batchJobs : List Nat) :
    ∀ (parts : List PyStr) (k : Nat) (store : List (BatchJob V E)) (j : Nat),
      j ∉ batchJobs →
      (demuxLoop urlPrefix requests handlers batchJobs k parts store).1[j]? =
        store[j]? := by
  intro parts
  induction parts with
  | nil => intro k store j _; rfl
  | cons part rest ih =>
    intro k store j hj
    simp only [demuxLoop]
    split
    next request handler jid hr hh hb =>
      have hjid : jid ∈ batchJobs := List.getElem?_mem hb
      have hne : jid ≠ j := fun hEq => hj (hEq ▸ hjid)
      split
      next job hjob =>
        split
        next e hpe => rfl
        next sc st bd hpe =>
          rw [ih (k + 1) _ j hj]
          exact List.getElem?_set_ne hne
      next => rfl
    next => rfl

/-- Commit never modifies a job whose reference is not in the queue. -/
theorem commit_jobStore_untouched {V E : Type}
    (transport : PyStr → BatchHTTPResponse) (urlPrefix : PyStr)
    (s : BatchState V E) (j : Nat) (hj : j ∉ s.batchJobs) :
    (BatchExecution.commit transport urlPrefix s).state.jobStore[j]? =
      s.jobStore[j]? := by
  unfold BatchExecution.commit
  split
  · rfl
  · dsimp only
    split
    · rfl
    · split
      · rfl
      · split
        next store hpair =>
          have hframe := demuxLoop_frame urlPrefix s.requests s.handlers
            s.batchJobs
            (batchResponseParts
              (transport (buildRawData s.requests)).raw_body) 0 s.jobStore j hj
          rw [hpair] at hframe
          exact hframe
        next store e hpair =>
          have hframe := demuxLoop_frame urlPrefix s.requests s.handlers
            s.batchJobs
            (batchResponseParts
              (transport (buildRawData s.requests)).raw_body) 0 s.jobStore j hj
          rw [hpair] at hframe
          exact hframe

/-- Every job referenced from the queue still holds its initial PENDING
value (the queue-jobs-pending invariant). -/
def QueuedPending {V E : Type} (s : BatchState V E) : Prop :=
  ∀ jid ∈ s.batchJobs, s.jobStore[jid]? = some BatchJob.init

/-- handle_request preserves the queue-jobs-pending invariant: old queued
references keep their entries, and the fresh job is created as PENDING. -/
theorem handle_request_queuedPending {V E : Type} (s : BatchState V E)
    (request : Request) (handler : Handler V E) (hq : QueuedPending s) :
    QueuedPending (BatchExecution.handle_request s request handler).1 := by
  unfold QueuedPending BatchExecution.handle_request
  dsimp only
  split
  · intro jid hm
    rcases List.mem_append.mp hm with hm | hm
    · have hold := hq jid hm
      obtain ⟨hlt, _⟩ := List.getElem?_eq_some.mp hold
      rw [List.getElem?_append_left hlt]
      exact hold
    · have hlen : jid = s.jobStore.length := by simpa using hm
      subst hlen
      exact List.getElem?_concat_length _ _
  · exact hq

/-- Commit trivially restores the queue-jobs-pending invariant because it
empties the queue of job references. -/
theorem commit_queuedPending {V E : Type} (transport : PyStr → BatchHTTPResponse)
    (urlPrefix : PyStr) (s : BatchState V E) :
    QueuedPending (BatchExecution.commit transport urlPrefix s).state := by
  intro jid hm
  rw [commit_batchJobs_empty] at hm
  simp at hm

/-- The queue-jobs-pending invariant holds in every state reachable from a
fresh BatchExecution. -/
theorem runOps_queuedPending {V E : Type} (urlPrefix : PyStr)
    (return_result : Bool) (ops : List (BatchOp V E)) :
    QueuedPending (runOps urlPrefix return_result ops) := by
  suffices h : ∀ (ops : List (BatchOp V E)) (s : BatchState V E),
      QueuedPending s → QueuedPending (ops.foldl (execOp urlPrefix) s) by
    exact h ops (freshBatch return_result) (fun jid hm => by simp [freshBatch] at hm)
  intro ops
  induction ops with
  | nil => intro s hs; exact hs
  | cons op rest ih =>
    intro s hs
    rw [List.foldl_cons]
    apply ih
    cases op with
    | handleRequest request handler =>
      exact handle_request_queuedPending s request handler hs
    | commit transport => exact commit_queuedPending transport urlPrefix s

/-- C10: BatchJob single-transition invariant along every reachable trace.
(a) Before any commit that includes it, every job referenced from the
queue still holds PENDING with absent result and exception; (b) a job
handed back by handle_request is created in exactly that state; (c) an
existing job entry changes only as a side effect of a commit whose queue
references it; (d) once a job has left PENDING it never changes again — so
each job transitions PENDING → DONE or PENDING → ERROR at most once and is
never reversed. -/
theorem batch_job_single_transition {V E : Type} (urlPrefix : PyStr)
    (return_result : Bool) (ops : List (BatchOp V E)) :
    (∀ jid ∈ (runOps urlPrefix return_result ops).batchJobs,
      (runOps urlPrefix return_result ops).jobStore[jid]? =
        some ⟨.pending, none, none⟩) ∧
    (∀ (s : BatchState V E) (request : Request) (handler : Handler V E) (jid : Nat),
      (BatchExecution.handle_request s request handler).2 = some jid →
      (BatchExecution.handle_request s request handler).1.jobStore[jid]? =
        some ⟨.pending, none, none⟩) ∧
    (∀ (op : BatchOp V E) (j : Nat),
      j < (runOps urlPrefix return_result ops).jobStore.length →
      (runOps urlPrefix return_result (ops ++ [op])).jobStore[j]? ≠
        (runOps urlPrefix return_result ops).jobStore[j]? →
      ∃ t, op = .commit t ∧ j ∈ (runOps urlPrefix return_result ops).batchJobs) ∧
    (∀ (op : BatchOp V E) (j : Nat) (job : BatchJob V E),
      (runOps urlPrefix return_result ops).jobStore[j]? = some job →
      job.status ≠ .pending →
      (runOps urlPrefix return_result (ops ++ [op])).jobStore[j]? = some job) := by
  have hsnoc : ∀ (op : BatchOp V E),
      runOps urlPrefix return_result (ops ++ [op]) =
        execOp urlPrefix (runOps urlPrefix return_result ops) op := by
    intro op
    simp [runOps, List.foldl_append]
  have hpend := runOps_queuedPending urlPrefix return_result ops
  refine ⟨hpend, ?_, ?_, ?_⟩
  · intro s request handler jid hjid
    unfold BatchExecution.handle_request at hjid ⊢
    dsimp only at hjid ⊢
    split at hjid
    next hrr =>
      have hlen : s.jobStore.length = jid := by simpa using hjid
      subst hlen
      rw [if_pos hrr]
      exact List.getElem?_concat_length _ _
    next => simp at hjid
  · intro op j hlt hchange
    rw [hsnoc] at hchange
    cases op with
    | handleRequest request handler =>
      exact absurd (handle_request_jobStore_preserved _ request handler j hlt)
        hchange
    | commit transport =>
      by_cases hm : j ∈ (runOps urlPrefix return_result ops).batchJobs
      · exact ⟨transport, rfl, hm⟩
      · exact absurd (commit_jobStore_untouched transport urlPrefix _ j hm) hchange
  · intro op j job hjob hstatus
    rw [hsnoc]
    by_cases hm : j ∈ (runOps urlPrefix return_result ops).batchJobs
    · have hq := hpend j hm
      rw [hjob] at hq
      have hinit : job = BatchJob.init := by simpa using hq
      rw [hinit] at hstatus
      exact absurd rfl hstatus
    · cases op with
      | handleRequest request handler =>
        obtain ⟨hlt, _⟩ := List.getElem?_eq_some.mp hjob
        simp only [execOp]
        rw [handle_request_jobStore_preserved _ request handler j hlt]
        exact hjob
      | commit transport =>
        simp only [execOp]
        rw [commit_jobStore_untouched transport urlPrefix _ j hm]
        exact hjob

/-- The single-part multipart response body used by the C10 witness. -/
def c10Body : PyStr :=
  pyLit "--XXXsubpartXXX\r\nContent-Type: application/x-arango-batchpart\r\nContent-Id: 1\r\n\r\nHTTP/1.1 200 OK\r\nServer: test\r\n\r\nbody\r\n--XXXsubpartXXX--\r\n\r\n"

/-- A transport answering the outer batch POST with the single-part body. -/
def c10Transport : PyStr → BatchHTTPResponse := fun _ => ⟨200, c10Body⟩

/-- C10 witness: after one handle_request the queued job is PENDING, and
the store entry of job 0 changes only through a commit that includes it. -/
theorem batch_job_single_transition_witness :
    (runOps (pyLit "u") true
      [BatchOp.handleRequest (V := Nat) (E := Nat) c1Req1 c1Handler1]).jobStore[0]? =
      some ⟨.pending, none, none⟩ ∧
    (∃ t, BatchOp.commit (V := Nat) (E := Nat) c10Transport = BatchOp.commit t ∧
      0 ∈ (runOps (pyLit "u") true
        [BatchOp.handleRequest (V := Nat) (E := Nat) c1Req1 c1Handler1]).batchJobs) :=
  ⟨(batch_job_single_transition (pyLit "u") true
      [BatchOp.handleRequest c1Req1 c1Handler1]).1 0 (by decide),
   (batch_job_single_transition (pyLit "u") true
      [BatchOp.handleRequest c1Req1 c1Handler1]).2.2.1
      (BatchOp.commit c10Transport) 0 (by decide) (by decide)⟩
